import Mathlib

/-!  Verification of the stope-design engine: a shallow embedding of the
core pipeline (method classification, geometry derivation, stability
assessment, cost estimation) from `stability_analysis.py`,
`stope_calculations.py` and `cost_estimation.py`, together with proofs of
the specified properties.  Real-valued quantities are modelled over ℝ;
Python's `round(x, 2)` is modelled as rounding to the nearest multiple of
1/100. -/

set_option linter.unreachableTactic false

set_option linter.unusedTactic false

namespace StopeDesign

/-- Rounding to two decimal places, the model of Python `round(x, 2)`. -/
noncomputable def round2 (x : ℝ) : ℝ := ((round (x * 100) : ℤ) : ℝ) / 100

/-- Predicate: `x` is an exact multiple of one hundredth (a whole number of cents). -/
def IsCent (x : ℝ) : Prop := ∃ m : ℤ, x = (m : ℝ) / 100

lemma isCent_round2 (x : ℝ) : IsCent (round2 x) := ⟨round (x * 100), rfl⟩

lemma IsCent.add {x y : ℝ} (hx : IsCent x) (hy : IsCent y) : IsCent (x + y) := by
  obtain ⟨m, rfl⟩ := hx
  obtain ⟨n, rfl⟩ := hy
  exact ⟨m + n, by push_cast; ring⟩

lemma IsCent.mul_int {x : ℝ} (hx : IsCent x) (n : ℤ) : IsCent (x * n) := by
  obtain ⟨m, rfl⟩ := hx
  exact ⟨m * n, by push_cast; ring⟩

lemma round2_of_isCent {x : ℝ} (hx : IsCent x) : round2 x = x := by
  obtain ⟨m, rfl⟩ := hx
  unfold round2
  rw [div_mul_cancel₀ _ (by norm_num : (100 : ℝ) ≠ 0), round_intCast]

lemma round2_add_of_isCent (x : ℝ) {e : ℝ} (he : IsCent e) :
    round2 (x + e) = round2 x + e := by
  obtain ⟨m, rfl⟩ := he
  unfold round2
  rw [add_mul, div_mul_cancel₀ _ (by norm_num : (100 : ℝ) ≠ 0), round_add_int]
  push_cast
  ring

lemma le_round2 (m : ℤ) (x : ℝ) (h : (m : ℝ) / 100 ≤ x) :
    (m : ℝ) / 100 ≤ round2 x := by
  unfold round2
  have hm : m ≤ round (x * 100) := by
    rw [round_eq, Int.le_floor]
    have : (m : ℝ) ≤ x * 100 := by linarith
    linarith
  have h3 : (m : ℝ) ≤ ((round (x * 100) : ℤ) : ℝ) := Int.cast_le.mpr hm
  linarith

-- ============================================================
-- Constants (stability_analysis.py, lines 18-30)
-- ============================================================

noncomputable def DGMS_SAFETY_FACTOR_MIN : ℝ := 1.5

noncomputable def DGMS_PILLAR_WIDTH_MIN : ℝ := 3.0

noncomputable def CMRI_RMR_ADJUSTMENT : ℝ := 5

noncomputable def IBE_STRESS_FACTOR : ℝ := 0.028

noncomputable def HOEK_MI_DEFAULT : ℝ := 15

noncomputable def Q_JOINT_SET_NUMBER : ℝ := 9

noncomputable def Q_JOINT_ROUGHNESS : ℝ := 2

noncomputable def Q_JOINT_ALTERATION : ℝ := 1

noncomputable def Q_WATER_FACTOR : ℝ := 1.0

noncomputable def Q_STRESS_REDUCTION : ℝ := 2.5

-- ============================================================
-- Geotechnical formulae (stability_analysis.py, lines 75-124)
-- ============================================================

/-- Source `calculate_rmr_standard`: RMR = clamp(0.77·RQD + 12 + adjustment, 0, 100). -/
noncomputable def calculate_rmr_standard (rqd : ℝ) : ℝ :=
  max 0 (min 100 (0.77 * rqd + 12 + CMRI_RMR_ADJUSTMENT))

/-- Source `calculate_q_standard`: Q = (RQD/Jn)·(Jr/Ja)·(Jw/SRF). -/
noncomputable def calculate_q_standard (rqd : ℝ) : ℝ :=
  (rqd / Q_JOINT_SET_NUMBER) * (Q_JOINT_ROUGHNESS / Q_JOINT_ALTERATION) *
    (Q_WATER_FACTOR / Q_STRESS_REDUCTION)

/-- Source `calculate_stability_number_standard`: N' = Q·A·B·C with the depth,
orientation and gravity factors of the source. -/
noncomputable def calculate_stability_number_standard (q_val dip depth : ℝ) : ℝ :=
  let a : ℝ := if depth > 500 then 1.0 else 0.85
  let b : ℝ := max 0.3 (min 0.7 (0.3 + (dip - 20) / 70))
  let c : ℝ := 1 - Real.cos (dip * Real.pi / 180)
  q_val * a * b * c

/-- Source `calculate_horizontal_k_ratio_standard`: Brown-Hoek k decreasing with
depth, clamped to [0.5, 2.0]. -/
noncomputable def calculate_horizontal_k_ratio_standard (depth : ℝ) : ℝ :=
  let k : ℝ := if depth < 300 then 1.5 else 0.65 + 1350 / (depth + 200)
  min 2.0 (max 0.5 k)

/-- Source `calculate_ucs_from_rqd_standard`: UCS = 20 + 0.8·RQD. -/
noncomputable def calculate_ucs_from_rqd_standard (rqd : ℝ) : ℝ := 20 + 0.8 * rqd

/-- Source `calculate_gsi_from_rqd_standard`: GSI = clamp(RQD - 15, 20, 85). -/
noncomputable def calculate_gsi_from_rqd_standard (rqd : ℝ) : ℝ :=
  max 20 (min 85 (rqd - 15))

/-- Source `calculate_hoek_brown_strength_standard`: σcm = σci · s^a.  The source
also computes the constant `mb`, which does not enter the returned value. -/
noncomputable def calculate_hoek_brown_strength_standard (rqd : ℝ) : ℝ :=
  let sigma_ci := calculate_ucs_from_rqd_standard rqd
  let gsi := calculate_gsi_from_rqd_standard rqd
  let s := Real.exp ((gsi - 100) / 9)
  let a := 0.5 + (1 / 6) * (Real.exp (-gsi / 15) - Real.exp (-20 / 3))
  sigma_ci * s ^ a

/-- Source `calculate_hydraulic_radius_design`: Mathews-Potvin piecewise curve. -/
noncomputable def calculate_hydraulic_radius_design (n_prime : ℝ) : ℝ :=
  if n_prime ≤ 3 then 2.5 + 0.5 * n_prime
  else if n_prime ≤ 10 then 4.0 + 0.8 * n_prime
  else 7.0 + 5.0 * Real.logb 10 n_prime

-- ============================================================
-- Data model
-- ============================================================

/-- The five mining methods returned by `determine_stope_type`. -/
inductive StopeType where
  | VerticalCraterRetreat
  | SublevelStoping
  | CutAndFill
  | RoomAndPillar
  | ShrinkageStoping
deriving DecidableEq, Repr

/-- The stability classes of `assess_stability` (the source labels the
first one with the string Unstable and a DGMS remark). -/
inductive StabilityClass where
  | Unstable
  | Marginal
  | Stable
  | HighlyStable
deriving DecidableEq, Repr

/-- A validated input mapping: the four required numeric fields are
present (the pipeline is only entered after `validate_inputs` succeeds). -/
structure Inputs where
  dip_angle : ℝ
  ore_thickness : ℝ
  rqd : ℝ
  mining_depth : ℝ

/-- The dimensions record returned by `calculate_stope_dimensions`. -/
structure Dimensions where
  length : ℝ
  width : ℝ
  height : ℝ
  volume : ℝ
  hydraulic_radius : ℝ
  design_hydraulic_radius : ℝ
  stability_number : ℝ
  rmr : ℝ
  q_value : ℝ
  stope_type : StopeType

/-- The assessment record returned by `assess_stability`. -/
structure Assessment where
  safety_factor : ℝ
  stability_class : StabilityClass
  vertical_stress : ℝ
  horizontal_stress : ℝ
  k_ratio : ℝ
  rock_strength : ℝ
  dgms_compliant : Prop

/-- The cost record returned by `estimate_mining_costs`. -/
structure Costs where
  labor : ℝ
  equipment : ℝ
  support : ℝ
  ventilation : ℝ
  total : ℝ

-- ============================================================
-- Main calculation functions (stability_analysis.py, lines 130-237)
-- ============================================================

/-- Source `determine_stope_type`: the fixed-priority decision table on dip, rqd
and depth (first match wins).  On validated inputs the source's
`inputs.get` of the depth always finds the field. -/
noncomputable def determine_stope_type (i : Inputs) : StopeType :=
  if i.dip_angle > 60 ∧ i.rqd ≥ 75 ∧ i.mining_depth < 800 then
    .VerticalCraterRetreat
  else if 45 < i.dip_angle ∧ i.dip_angle ≤ 60 ∧ i.rqd ≥ 75 then
    .SublevelStoping
  else if 30 < i.dip_angle ∧ i.dip_angle ≤ 45 ∧ i.rqd ≥ 60 then
    .CutAndFill
  else if i.dip_angle ≤ 30 ∧ i.rqd ≥ 50 then
    .RoomAndPillar
  else if i.dip_angle > 50 ∧ i.rqd ≥ 40 then
    .ShrinkageStoping
  else
    .ShrinkageStoping

/-- Source `calculate_stope_dimensions`: width from the Mathews-Potvin design
hydraulic radius and the DGMS minimum, length and height re-derived from
the safety-adjusted width.  The source's intermediate `length_raw` and
`height_raw` are overwritten before use and are omitted. -/
noncomputable def calculate_stope_dimensions (i : Inputs) : Dimensions :=
  let rqd := max 0 (min 100 i.rqd)
  let stope_type := determine_stope_type i
  let rmr := calculate_rmr_standard rqd
  let q_value := calculate_q_standard rqd
  let n_prime := calculate_stability_number_standard q_value i.dip_angle i.mining_depth
  let hr_design := calculate_hydraulic_radius_design n_prime
  let width_raw := max DGMS_PILLAR_WIDTH_MIN (2.0 * hr_design)
  let safety_adj := max 0.85 (min 1.0 (DGMS_SAFETY_FACTOR_MIN / 1.5 * 0.9))
  let width := round2 (width_raw * safety_adj)
  let length := round2 (width * 10)
  let height := round2 (width * 0.8)
  let volume := round2 (width * length * height)
  let hr_geometric := round2 ((width * height) / (2 * (width + height)))
  { length := length
    width := width
    height := height
    volume := volume
    hydraulic_radius := hr_geometric
    design_hydraulic_radius := round2 hr_design
    stability_number := round2 n_prime
    rmr := round2 rmr
    q_value := round2 q_value
    stope_type := stope_type }

/-- Source `assess_stability`: safety factor from Hoek-Brown strength over IBE
vertical stress.  The `dims` argument only feeds the (out of scope)
visualization in the source and does not affect the returned record. -/
noncomputable def assess_stability (i : Inputs) (_dims : Dimensions) : Assessment :=
  let depth := max 0.1 i.mining_depth
  let rqd := max 0 (min 100 i.rqd)
  let ore_t := max 0.1 i.ore_thickness
  let sig_v := depth * IBE_STRESS_FACTOR
  let k_ratio := calculate_horizontal_k_ratio_standard depth
  let sig_h := sig_v * k_ratio
  let rock_s := calculate_hoek_brown_strength_standard rqd *
    (1 + 0.015 * Real.log (ore_t + 1))
  let sf := round2 (rock_s / sig_v)
  let cls : StabilityClass :=
    if sf < DGMS_SAFETY_FACTOR_MIN then .Unstable
    else if sf < 2.0 then .Marginal
    else if sf < 2.5 then .Stable
    else .HighlyStable
  { safety_factor := sf
    stability_class := cls
    vertical_stress := round2 sig_v
    horizontal_stress := round2 sig_h
    k_ratio := round2 k_ratio
    rock_strength := round2 rock_s
    dgms_compliant := sf ≥ DGMS_SAFETY_FACTOR_MIN }

-- ============================================================
-- Cost estimation (cost_estimation.py, lines 61-141)
-- ============================================================

/-- Source `_calculate_labor_cost`: volume over a stope-type productivity times
the labour rate. -/
noncomputable def calculate_labor_cost (dims : Dimensions) : ℝ :=
  let productivity : ℝ :=
    match dims.stope_type with
    | .SublevelStoping => 1.2
    | .CutAndFill => 0.6
    | .ShrinkageStoping => 0.7
    | .VerticalCraterRetreat => 1.4
    | .RoomAndPillar => 0.8
  let labor_rate : ℝ := 1200
  dims.volume / productivity * labor_rate

/-- Source `_calculate_support_cost`: volume times a base rate from rqd times a
stope-type factor. -/
noncomputable def calculate_support_cost (i : Inputs) (dims : Dimensions) : ℝ :=
  let base_cost : ℝ := if i.rqd < 50 then 480 else if i.rqd < 75 then 320 else 180
  let factor : ℝ :=
    match dims.stope_type with
    | .RoomAndPillar => 1.5
    | .CutAndFill => 0.8
    | _ => 0.6
  dims.volume * base_cost * factor

/-- Source `_calculate_ventilation_cost`: the source reads the key mining_depth
from the dimensions record, which has no such key, so the `.get` default
of 300 is always used and the depth factor is the constant 1.3. -/
noncomputable def calculate_ventilation_cost (dims : Dimensions) : ℝ :=
  dims.volume * 120 * (1 + 300 / 1000)

/-- Source `estimate_mining_costs`: the four components rounded to two decimals,
and the total rounded from the unrounded sum. -/
noncomputable def estimate_mining_costs (i : Inputs) (dims : Dimensions) : Costs :=
  let labor_cost := calculate_labor_cost dims
  let equipment_cost := dims.volume * 62
  let support_cost := calculate_support_cost i dims
  let ventilation_cost := calculate_ventilation_cost dims
  let total_cost := labor_cost + equipment_cost + support_cost + ventilation_cost
  { labor := round2 labor_cost
    equipment := round2 equipment_cost
    support := round2 support_cost
    ventilation := round2 ventilation_cost
    total := round2 total_cost }

-- ============================================================
-- Orchestration (stope_calculations.py, lines 13-76)
-- ============================================================

/-- An input mapping as the orchestrator receives it: each of the four
required numeric fields may be absent (or None), and the mapping may
carry a stope_type entry (the pipeline inserts one). -/
structure RawInputs where
  dip_angle : Option ℝ
  ore_thickness : Option ℝ
  rqd : Option ℝ
  mining_depth : Option ℝ
  stope_type : Option StopeType

/-- The required fields absent from the mapping, in the order of
REQUIRED_FIELDS. -/
def missingFields (r : RawInputs) : List String :=
  (if r.dip_angle.isNone then [("dip_angle")] else []) ++
  (if r.ore_thickness.isNone then [("ore_thickness")] else []) ++
  (if r.rqd.isNone then [("rqd")] else []) ++
  (if r.mining_depth.isNone then [("mining_depth")] else [])

/-- Source `validate_inputs`: reports missing fields first, then checks the four
ranges in order, and otherwise hands the validated numeric fields on.
The source's float conversion can only fail on non-numeric values, which
the numeric model cannot hold. -/
noncomputable def validate_inputs (r : RawInputs) : Except String Inputs :=
  match r.dip_angle, r.ore_thickness, r.rqd, r.mining_depth with
  | some d, some t, some q, some m =>
    if ¬(0 ≤ d ∧ d ≤ 90) then
      .error ("Dip angle must be between 0 and 90 degrees.")
    else if ¬(0.3 ≤ t ∧ t ≤ 100) then
      .error ("Ore thickness must be between 0.3 and 100 meters.")
    else if ¬(25 ≤ q ∧ q ≤ 100) then
      .error ("RQD must be between 25% and 100%.")
    else if ¬(5 ≤ m ∧ m ≤ 2000) then
      .error ("Mining depth must be between 5 and 2000 meters.")
    else
      .ok { dip_angle := d, ore_thickness := t, rqd := q, mining_depth := m }
  | _, _, _, _ =>
    .error ("Missing or invalid fields: " ++
      String.intercalate (", ") (missingFields r) ++ ".")

/-- The aggregate result record of a successful design run. -/
structure DesignResult where
  stope_type : StopeType
  dimensions : Dimensions
  stability : Assessment
  costs : Costs

/-- Source `calculate_stope_design`: validates, then runs the pipeline.  The
source mutates the input mapping by assigning its stope_type key before
computing dimensions, so the function returns both the result and the
final state of the mapping.  The source's later assignment of the
stope_type key of `dimensions` re-stores the value the dimensions record
already carries. -/
noncomputable def calculate_stope_design (r : RawInputs) :
    Except String DesignResult × RawInputs :=
  match validate_inputs r with
  | .error e => (.error e, r)
  | .ok i =>
    let stope_type := determine_stope_type i
    let r' := { r with stope_type := some stope_type }
    let dims := calculate_stope_dimensions i
    let stability := assess_stability i dims
    let costs := estimate_mining_costs i dims
    (.ok { stope_type := stope_type, dimensions := dims,
           stability := stability, costs := costs }, r')

/-- Validity of an input record: the four ranges that `validate_inputs`
enforces. -/
def ValidInputs (i : Inputs) : Prop :=
  0 ≤ i.dip_angle ∧ i.dip_angle ≤ 90 ∧
  0.3 ≤ i.ore_thickness ∧ i.ore_thickness ≤ 100 ∧
  25 ≤ i.rqd ∧ i.rqd ≤ 100 ∧
  5 ≤ i.mining_depth ∧ i.mining_depth ≤ 2000

-- ============================================================
-- Spec-side reference definitions (for the refinement claims)
-- ============================================================

/-- Transcription of the §4.2 decision table of the spec, first match
wins; compared against `determine_stope_type`. -/
noncomputable def specMethodTable (dip rqd depth : ℝ) : StopeType :=
  if dip > 60 ∧ rqd ≥ 75 ∧ depth < 800 then .VerticalCraterRetreat
  else if 45 < dip ∧ dip ≤ 60 ∧ rqd ≥ 75 then .SublevelStoping
  else if 30 < dip ∧ dip ≤ 45 ∧ rqd ≥ 60 then .CutAndFill
  else if dip ≤ 30 ∧ rqd ≥ 50 then .RoomAndPillar
  else if dip > 50 ∧ rqd ≥ 40 then .ShrinkageStoping
  else .ShrinkageStoping

/-- Transcription of the §4.3 modified stability number of the spec. -/
noncomputable def specStabilityNumber (q dip depth : ℝ) : ℝ :=
  q * (if depth > 500 then 1.0 else 0.85) *
    (min 0.7 (max 0.3 (0.3 + (dip - 20) / 70))) *
    (1 - Real.cos (dip * Real.pi / 180))

/-- Transcription of the §4.3 Mathews-Potvin hydraulic-radius curve of
the spec. -/
noncomputable def specDesignHR (n : ℝ) : ℝ :=
  if n ≤ 3 then 2.5 + 0.5 * n
  else if n ≤ 10 then 4.0 + 0.8 * n
  else 7.0 + 5.0 * Real.logb 10 n

/-- Transcription of the §4.4 width derivation of the spec: DGMS minimum,
doubled design hydraulic radius and the clamped safety adjustment. -/
noncomputable def specWidth (q dip depth : ℝ) : ℝ :=
  round2 (max 3.0 (2 * specDesignHR (specStabilityNumber q dip depth)) *
    (min 1.0 (max 0.85 (1.5 / 1.5 * 0.9))))

/-- Transcription of the §4.4 volume of the spec: the three re-derived
rounded dimensions multiplied and rounded. -/
noncomputable def specVolume (q dip depth : ℝ) : ℝ :=
  round2 (specWidth q dip depth * round2 (10 * specWidth q dip depth) *
    round2 (0.8 * specWidth q dip depth))

/-- Transcription of the §4.5 Hoek-Brown rock-mass strength of the spec,
with the ore-thickness adjustment. -/
noncomputable def specStrength (rqd ore_t : ℝ) : ℝ :=
  (20 + 0.8 * rqd) *
    (Real.exp ((min 85 (max 20 (rqd - 15)) - 100) / 9)) ^
      (0.5 + (1 / 6) * (Real.exp (-(min 85 (max 20 (rqd - 15))) / 15) -
        Real.exp (-20 / 3))) *
    (1 + 0.015 * Real.log (ore_t + 1))

/-- Transcription of the §4.5 safety factor of the spec. -/
noncomputable def specSafetyFactor (rqd ore_t depth : ℝ) : ℝ :=
  round2 (specStrength rqd ore_t / (depth * 0.028))

-- ============================================================
-- Field-unfolding lemmas for the dimensions record
-- ============================================================

lemma dims_width_eq (i : Inputs) :
    (calculate_stope_dimensions i).width =
      round2 (max DGMS_PILLAR_WIDTH_MIN (2.0 * calculate_hydraulic_radius_design
        (calculate_stability_number_standard (calculate_q_standard (max 0 (min 100 i.rqd)))
          i.dip_angle i.mining_depth)) *
        max 0.85 (min 1.0 (DGMS_SAFETY_FACTOR_MIN / 1.5 * 0.9))) := rfl

lemma dims_length_eq (i : Inputs) :
    (calculate_stope_dimensions i).length =
      round2 ((calculate_stope_dimensions i).width * 10) := rfl

lemma dims_height_eq (i : Inputs) :
    (calculate_stope_dimensions i).height =
      round2 ((calculate_stope_dimensions i).width * 0.8) := rfl

lemma dims_volume_eq (i : Inputs) :
    (calculate_stope_dimensions i).volume =
      round2 ((calculate_stope_dimensions i).width * (calculate_stope_dimensions i).length *
        (calculate_stope_dimensions i).height) := rfl

-- ============================================================
-- Lower bounds for the derived geometry
-- ============================================================

lemma le_round2' (a x : ℝ) (m : ℤ) (hma : a ≤ (m : ℝ) / 100) (hx : (m : ℝ) / 100 ≤ x) :
    a ≤ round2 x := le_trans hma (le_round2 m x hx)

lemma calculate_q_standard_nonneg (r : ℝ) (h : 0 ≤ r) : 0 ≤ calculate_q_standard r := by
  unfold calculate_q_standard Q_JOINT_SET_NUMBER Q_JOINT_ROUGHNESS Q_JOINT_ALTERATION
    Q_WATER_FACTOR Q_STRESS_REDUCTION
  positivity

lemma calculate_stability_number_standard_nonneg (q dip depth : ℝ) (hq : 0 ≤ q) :
    0 ≤ calculate_stability_number_standard q dip depth := by
  unfold calculate_stability_number_standard
  have ha : (0 : ℝ) ≤ if depth > 500 then 1.0 else 0.85 := by
    split_ifs <;> norm_num
  have hb : (0 : ℝ) ≤ max 0.3 (min 0.7 (0.3 + (dip - 20) / 70)) := by
    have : (0.3 : ℝ) ≤ max 0.3 (min 0.7 (0.3 + (dip - 20) / 70)) := le_max_left _ _
    linarith
  have hc : (0 : ℝ) ≤ 1 - Real.cos (dip * Real.pi / 180) := by
    have := Real.cos_le_one (dip * Real.pi / 180)
    linarith
  exact mul_nonneg (mul_nonneg (mul_nonneg hq ha) hb) hc

lemma hr_design_ge (n : ℝ) (hn : 0 ≤ n) : 2.5 ≤ calculate_hydraulic_radius_design n := by
  unfold calculate_hydraulic_radius_design
  split_ifs with h1 h2
  · linarith
  · push_neg at h1
    linarith
  · push_neg at h1 h2
    have hlog : (0 : ℝ) ≤ Real.logb 10 n := by
      apply Real.logb_nonneg (by norm_num)
      linarith
    linarith

lemma dims_width_ge (i : Inputs) : (9 : ℝ) / 2 ≤ (calculate_stope_dimensions i).width := by
  rw [dims_width_eq]
  have hq := calculate_q_standard_nonneg (max 0 (min 100 i.rqd)) (le_max_left 0 _)
  have hn := calculate_stability_number_standard_nonneg
    (calculate_q_standard (max 0 (min 100 i.rqd))) i.dip_angle i.mining_depth hq
  have hhr := hr_design_ge _ hn
  have hadj : max 0.85 (min 1.0 (DGMS_SAFETY_FACTOR_MIN / 1.5 * 0.9)) = (0.9 : ℝ) := by
    unfold DGMS_SAFETY_FACTOR_MIN
    norm_num
  rw [hadj]
  apply le_round2' _ _ 450 (by norm_num)
  have hwr : (5 : ℝ) ≤ max DGMS_PILLAR_WIDTH_MIN (2.0 * calculate_hydraulic_radius_design
      (calculate_stability_number_standard (calculate_q_standard (max 0 (min 100 i.rqd)))
        i.dip_angle i.mining_depth)) := by
    have h2 : (5 : ℝ) ≤ 2.0 * calculate_hydraulic_radius_design
        (calculate_stability_number_standard (calculate_q_standard (max 0 (min 100 i.rqd)))
          i.dip_angle i.mining_depth) := by linarith
    exact le_trans h2 (le_max_right _ _)
  push_cast
  linarith

lemma dims_length_ge (i : Inputs) : (45 : ℝ) ≤ (calculate_stope_dimensions i).length := by
  rw [dims_length_eq]
  have hw := dims_width_ge i
  apply le_round2' _ _ 4500 (by norm_num)
  push_cast
  linarith

lemma dims_height_ge (i : Inputs) : (18 : ℝ) / 5 ≤ (calculate_stope_dimensions i).height := by
  rw [dims_height_eq]
  have hw := dims_width_ge i
  apply le_round2' _ _ 360 (by norm_num)
  push_cast
  linarith

lemma dims_volume_ge (i : Inputs) : (729 : ℝ) ≤ (calculate_stope_dimensions i).volume := by
  rw [dims_volume_eq]
  have hw := dims_width_ge i
  have hl := dims_length_ge i
  have hh := dims_height_ge i
  apply le_round2' _ _ 72900 (by norm_num)
  push_cast
  have h1 : (9 / 2 : ℝ) * 45 ≤ (calculate_stope_dimensions i).width *
      (calculate_stope_dimensions i).length :=
    mul_le_mul hw hl (by norm_num) (by linarith)
  have h2 : ((9 / 2 : ℝ) * 45) * (18 / 5) ≤ ((calculate_stope_dimensions i).width *
      (calculate_stope_dimensions i).length) * (calculate_stope_dimensions i).height :=
    mul_le_mul h1 hh (by norm_num) (by linarith)
  linarith

-- ============================================================
-- C9, C8, C4
-- ============================================================

/-- C9: in every dimensions record returned by `calculate_stope_dimensions`,
the volume field is the two-decimal rounding of the product of the already
rounded width, length and height fields of the same record. -/
theorem volume_recomputed_from_dimensions (i : Inputs) :
    (calculate_stope_dimensions i).volume =
      round2 ((calculate_stope_dimensions i).width * (calculate_stope_dimensions i).length *
        (calculate_stope_dimensions i).height) := rfl

/-- C8: `calculate_rmr_standard` and `calculate_q_standard` are monotonically
non-decreasing in rqd. -/
theorem rmr_q_monotone_in_rqd (r1 r2 : ℝ) (h : r1 ≤ r2) :
    calculate_rmr_standard r1 ≤ calculate_rmr_standard r2 ∧
    calculate_q_standard r1 ≤ calculate_q_standard r2 := by
  constructor
  · unfold calculate_rmr_standard CMRI_RMR_ADJUSTMENT
    apply max_le_max le_rfl
    apply min_le_min le_rfl
    linarith
  · unfold calculate_q_standard Q_JOINT_SET_NUMBER Q_JOINT_ROUGHNESS Q_JOINT_ALTERATION
      Q_WATER_FACTOR Q_STRESS_REDUCTION
    have h9 : (0 : ℝ) < 9 := by norm_num
    nlinarith

/-- C8 witness: the monotonicity at the concrete pair rqd = 30 ≤ 50. -/
theorem rmr_q_monotone_in_rqd_witness :
    (30 : ℝ) ≤ 50 ∧
    (calculate_rmr_standard 30 ≤ calculate_rmr_standard 50 ∧
      calculate_q_standard 30 ≤ calculate_q_standard 50) :=
  ⟨by norm_num, rmr_q_monotone_in_rqd 30 50 (by norm_num)⟩

/-- C4: on the validated domain, `determine_stope_type` is total on the five
stope types and agrees with the first-match priority table of the spec; in
particular dip = 45 with rqd = 75 falls through to rule 3 (Cut-and-Fill)
because rule 2 requires dip > 45 strictly. -/
theorem method_classifier_matches_priority_table (i : Inputs)
    (_hdip : 0 ≤ i.dip_angle ∧ i.dip_angle ≤ 90) (_hrqd : 0 ≤ i.rqd ∧ i.rqd ≤ 100)
    (_hdepth : 5 ≤ i.mining_depth ∧ i.mining_depth ≤ 2000) :
    determine_stope_type i = specMethodTable i.dip_angle i.rqd i.mining_depth ∧
    (i.dip_angle = 45 → i.rqd = 75 → determine_stope_type i = .CutAndFill) := by
  constructor
  · rfl
  · intro h45 h75
    unfold determine_stope_type
    rw [h45, h75]
    norm_num

/-- C4 witness: the classifier at dip = 45, rqd = 75, depth = 300 agrees with
the spec table and lands on Cut-and-Fill. -/
theorem method_classifier_matches_priority_table_witness :
    ((0 : ℝ) ≤ 45 ∧ (45 : ℝ) ≤ 90) ∧ ((0 : ℝ) ≤ 75 ∧ (75 : ℝ) ≤ 100) ∧
    ((5 : ℝ) ≤ 300 ∧ (300 : ℝ) ≤ 2000) ∧
    (determine_stope_type ⟨45, 2, 75, 300⟩ = specMethodTable 45 75 300 ∧
      ((45 : ℝ) = 45 → (75 : ℝ) = 75 → determine_stope_type ⟨45, 2, 75, 300⟩ = .CutAndFill)) ∧
    determine_stope_type ⟨45, 2, 75, 300⟩ = .CutAndFill := by
  refine ⟨by norm_num, by norm_num, by norm_num, ?_, ?_⟩
  · exact method_classifier_matches_priority_table ⟨45, 2, 75, 300⟩
      (by norm_num) (by norm_num) (by norm_num)
  · exact (method_classifier_matches_priority_table ⟨45, 2, 75, 300⟩
      (by norm_num) (by norm_num) (by norm_num)).2 rfl rfl

-- ============================================================
-- C1, C2, C3
-- ============================================================

/-- C1: for every valid input the width of the dimensions record is at
least the DGMS minimum pillar width of 3.0 m (in fact it is at least
4.5 m, since the design hydraulic radius is never below 2.5 m). -/
theorem stope_width_meets_dgms_minimum (i : Inputs) (_h : ValidInputs i) :
    DGMS_PILLAR_WIDTH_MIN ≤ (calculate_stope_dimensions i).width := by
  have := dims_width_ge i
  unfold DGMS_PILLAR_WIDTH_MIN
  linarith

/-- C1 witness: the width invariant at the concrete valid input
dip 55, thickness 2, rqd 80, depth 400. -/
theorem stope_width_meets_dgms_minimum_witness :
    ValidInputs ⟨55, 2, 80, 400⟩ ∧
    DGMS_PILLAR_WIDTH_MIN ≤ (calculate_stope_dimensions ⟨55, 2, 80, 400⟩).width :=
  ⟨by constructor <;> norm_num,
    stope_width_meets_dgms_minimum ⟨55, 2, 80, 400⟩ (by constructor <;> norm_num)⟩

/-- C2: the ventilation cost at the failing input dip 55, thickness 2,
rqd 80, depth 400.  The code reads the mining depth from the dimensions
record, which has no such key, so the depth factor is the constant 1.3:
the computed ventilation cost therefore differs from the specified
volume × 120 × (1 + mining_depth/1000), whose factor at depth 400 is 1.4. -/
theorem ventilation_cost_ignores_mining_depth :
    calculate_ventilation_cost (calculate_stope_dimensions ⟨55, 2, 80, 400⟩) =
      (calculate_stope_dimensions ⟨55, 2, 80, 400⟩).volume * 120 * (1 + 300 / 1000) ∧
    calculate_ventilation_cost (calculate_stope_dimensions ⟨55, 2, 80, 400⟩) ≠
      (calculate_stope_dimensions ⟨55, 2, 80, 400⟩).volume * 120 *
        (1 + (Inputs.mk 55 2 80 400).mining_depth / 1000) := by
  constructor
  · rfl
  · intro heq
    have hv := dims_volume_ge ⟨55, 2, 80, 400⟩
    unfold calculate_ventilation_cost at heq
    have hmd : (Inputs.mk 55 2 80 400).mining_depth = (400 : ℝ) := rfl
    rw [hmd] at heq
    nlinarith [hv, heq]

-- ============================================================
-- Cost additivity helpers
-- ============================================================

lemma isCent_dims_volume (i : Inputs) : IsCent (calculate_stope_dimensions i).volume :=
  isCent_round2 _

lemma IsCent.mul_lit {x : ℝ} (hx : IsCent x) (n : ℤ) (c : ℝ) (hc : c = (n : ℝ)) :
    IsCent (x * c) := by
  rw [hc]
  exact hx.mul_int n

lemma isCent_equipment {dims : Dimensions} (hv : IsCent dims.volume) :
    IsCent (dims.volume * 62) := by
  obtain ⟨m, hm⟩ := hv
  exact ⟨m * 62, by rw [hm]; push_cast; ring⟩

lemma isCent_support (i : Inputs) {dims : Dimensions} (hv : IsCent dims.volume) :
    IsCent (calculate_support_cost i dims) := by
  obtain ⟨m, hm⟩ := hv
  rcases hst : dims.stope_type <;>
    simp only [calculate_support_cost, hst] <;>
    split_ifs <;>
    rw [hm]
  all_goals first
    | (refine ⟨m * 720, ?_⟩; push_cast; ring1)
    | (refine ⟨m * 480, ?_⟩; push_cast; ring1)
    | (refine ⟨m * 270, ?_⟩; push_cast; ring1)
    | (refine ⟨m * 384, ?_⟩; push_cast; ring1)
    | (refine ⟨m * 256, ?_⟩; push_cast; ring1)
    | (refine ⟨m * 144, ?_⟩; push_cast; ring1)
    | (refine ⟨m * 288, ?_⟩; push_cast; ring1)
    | (refine ⟨m * 192, ?_⟩; push_cast; ring1)
    | (refine ⟨m * 108, ?_⟩; push_cast; ring1)

lemma isCent_ventilation {dims : Dimensions} (hv : IsCent dims.volume) :
    IsCent (calculate_ventilation_cost dims) := by
  obtain ⟨m, hm⟩ := hv
  unfold calculate_ventilation_cost
  rw [hm]
  exact ⟨m * 156, by push_cast; ring⟩

/-- With a volume that is an exact number of cents, the rounded total of
`estimate_mining_costs` is exactly the sum of its four rounded components:
equipment, support and ventilation are themselves exact cent amounts, so
only the labour rounding enters, and it cancels. -/
lemma cost_total_eq_sum (i : Inputs) (dims : Dimensions) (hv : IsCent dims.volume) :
    (estimate_mining_costs i dims).total =
      (estimate_mining_costs i dims).labor + (estimate_mining_costs i dims).equipment +
      (estimate_mining_costs i dims).support + (estimate_mining_costs i dims).ventilation := by
  have he := isCent_equipment hv
  have hs := isCent_support i hv
  have hvent := isCent_ventilation hv
  have hesv := (he.add hs).add hvent
  have htot : (estimate_mining_costs i dims).total =
      round2 (calculate_labor_cost dims + (dims.volume * 62 + calculate_support_cost i dims +
        calculate_ventilation_cost dims)) := by
    show round2 (calculate_labor_cost dims + dims.volume * 62 + calculate_support_cost i dims +
      calculate_ventilation_cost dims) = _
    congr 1
    ring
  rw [htot, round2_add_of_isCent _ hesv]
  show round2 (calculate_labor_cost dims) + _ =
    round2 (calculate_labor_cost dims) + round2 (dims.volume * 62) +
      round2 (calculate_support_cost i dims) + round2 (calculate_ventilation_cost dims)
  rw [round2_of_isCent he, round2_of_isCent hs, round2_of_isCent hvent]
  ring

/-- C3: for every valid input, the rounded total of the cost record equals
the sum of the four rounded components to within ±0.01 INR (the difference
is in fact exactly zero). -/
theorem cost_total_additive_within_tolerance (i : Inputs) (_h : ValidInputs i) :
    |(estimate_mining_costs i (calculate_stope_dimensions i)).total -
      ((estimate_mining_costs i (calculate_stope_dimensions i)).labor +
        (estimate_mining_costs i (calculate_stope_dimensions i)).equipment +
        (estimate_mining_costs i (calculate_stope_dimensions i)).support +
        (estimate_mining_costs i (calculate_stope_dimensions i)).ventilation)| ≤ 0.01 := by
  rw [cost_total_eq_sum i (calculate_stope_dimensions i) (isCent_dims_volume i)]
  simp
  norm_num

/-- C3 witness: cost additivity at the concrete valid input
dip 55, thickness 2, rqd 80, depth 400. -/
theorem cost_total_additive_within_tolerance_witness :
    ValidInputs ⟨55, 2, 80, 400⟩ ∧
    |(estimate_mining_costs ⟨55, 2, 80, 400⟩ (calculate_stope_dimensions ⟨55, 2, 80, 400⟩)).total -
      ((estimate_mining_costs ⟨55, 2, 80, 400⟩
          (calculate_stope_dimensions ⟨55, 2, 80, 400⟩)).labor +
        (estimate_mining_costs ⟨55, 2, 80, 400⟩
          (calculate_stope_dimensions ⟨55, 2, 80, 400⟩)).equipment +
        (estimate_mining_costs ⟨55, 2, 80, 400⟩
          (calculate_stope_dimensions ⟨55, 2, 80, 400⟩)).support +
        (estimate_mining_costs ⟨55, 2, 80, 400⟩
          (calculate_stope_dimensions ⟨55, 2, 80, 400⟩)).ventilation)| ≤ 0.01 :=
  ⟨by constructor <;> norm_num,
    cost_total_additive_within_tolerance ⟨55, 2, 80, 400⟩ (by constructor <;> norm_num)⟩

-- ============================================================
-- C5
-- ============================================================

/-- C5: for every valid input the assessment's safety factor is the
two-decimal rounding of the Hoek-Brown rock-mass strength (with the ore
thickness adjustment) over the IBE vertical stress, DGMS compliance holds
exactly when the safety factor is at least 1.5, and the stability class is
the fixed threshold classification of the safety factor. -/
theorem stability_assessment_consistency (i : Inputs) (_h : ValidInputs i) :
    (assess_stability i (calculate_stope_dimensions i)).safety_factor =
      round2 ((calculate_hoek_brown_strength_standard (max 0 (min 100 i.rqd)) *
        (1 + 0.015 * Real.log (max 0.1 i.ore_thickness + 1))) /
        (max 0.1 i.mining_depth * IBE_STRESS_FACTOR)) ∧
    ((assess_stability i (calculate_stope_dimensions i)).dgms_compliant ↔
      (assess_stability i (calculate_stope_dimensions i)).safety_factor ≥ 1.5) ∧
    ((assess_stability i (calculate_stope_dimensions i)).stability_class = .Unstable ↔
      (assess_stability i (calculate_stope_dimensions i)).safety_factor < 1.5) ∧
    ((assess_stability i (calculate_stope_dimensions i)).stability_class = .Marginal ↔
      (1.5 ≤ (assess_stability i (calculate_stope_dimensions i)).safety_factor ∧
        (assess_stability i (calculate_stope_dimensions i)).safety_factor < 2.0)) ∧
    ((assess_stability i (calculate_stope_dimensions i)).stability_class = .Stable ↔
      (2.0 ≤ (assess_stability i (calculate_stope_dimensions i)).safety_factor ∧
        (assess_stability i (calculate_stope_dimensions i)).safety_factor < 2.5)) ∧
    ((assess_stability i (calculate_stope_dimensions i)).stability_class = .HighlyStable ↔
      2.5 ≤ (assess_stability i (calculate_stope_dimensions i)).safety_factor) := by
  set sf := (assess_stability i (calculate_stope_dimensions i)).safety_factor with hsf
  have hcls : (assess_stability i (calculate_stope_dimensions i)).stability_class =
      if sf < DGMS_SAFETY_FACTOR_MIN then StabilityClass.Unstable
      else if sf < 2.0 then StabilityClass.Marginal
      else if sf < 2.5 then StabilityClass.Stable
      else StabilityClass.HighlyStable := rfl
  have hdgms : (assess_stability i (calculate_stope_dimensions i)).dgms_compliant =
      (sf ≥ DGMS_SAFETY_FACTOR_MIN) := rfl
  have h15 : DGMS_SAFETY_FACTOR_MIN = (1.5 : ℝ) := rfl
  refine ⟨rfl, ?_, ?_, ?_, ?_, ?_⟩
  · rw [hdgms, h15]
  · rw [hcls, h15]
    split_ifs with h1 h2 h3 <;> simp <;> linarith
  · rw [hcls, h15]
    split_ifs with h1 h2 h3 <;> simp <;> push_neg at * <;>
      first
        | (intro hc; linarith)
        | (constructor <;> linarith)
        | (intro hc hc2; linarith)
  · rw [hcls, h15]
    split_ifs with h1 h2 h3 <;> simp <;> push_neg at * <;>
      first
        | (intro hc; linarith)
        | (constructor <;> linarith)
        | (intro hc hc2; linarith)
  · rw [hcls, h15]
    split_ifs with h1 h2 h3 <;> simp <;> push_neg at * <;>
      first
        | (intro hc; linarith)
        | (constructor <;> linarith)
        | (intro hc hc2; linarith)
        | linarith

/-- C5 witness: the assessment consistency at the concrete valid input
dip 55, thickness 2, rqd 80, depth 400. -/
theorem stability_assessment_consistency_witness :
    ValidInputs ⟨55, 2, 80, 400⟩ ∧
    ((assess_stability ⟨55, 2, 80, 400⟩
        (calculate_stope_dimensions ⟨55, 2, 80, 400⟩)).dgms_compliant ↔
      (assess_stability ⟨55, 2, 80, 400⟩
        (calculate_stope_dimensions ⟨55, 2, 80, 400⟩)).safety_factor ≥ 1.5) :=
  ⟨by constructor <;> norm_num,
    (stability_assessment_consistency ⟨55, 2, 80, 400⟩ (by constructor <;> norm_num)).2.1⟩

-- ============================================================
-- C6
-- ============================================================

/-- C6 counterexample: the pipeline does not leave the input mapping
unchanged.  At the valid input dip 55, thickness 2, rqd 80, depth 400 with
no stope_type entry, `calculate_stope_design` ends with a mapping whose
stope_type entry has been filled in, so the final mapping differs from the
initial one. -/
theorem design_pipeline_mutates_inputs :
    (calculate_stope_design ⟨some 55, some 2, some 80, some 400, none⟩).2 ≠
      (⟨some 55, some 2, some 80, some 400, none⟩ : RawInputs) := by
  have hv : validate_inputs ⟨some 55, some 2, some 80, some 400, none⟩ =
      .ok ⟨55, 2, 80, 400⟩ := by
    unfold validate_inputs
    norm_num
  have h2 : (calculate_stope_design ⟨some 55, some 2, some 80, some 400, none⟩).2 =
      { dip_angle := some 55, ore_thickness := some 2, rqd := some 80,
        mining_depth := some 400,
        stope_type := some (determine_stope_type ⟨55, 2, 80, 400⟩) } := by
    unfold calculate_stope_design
    rw [hv]
  rw [h2]
  intro h
  have := congrArg RawInputs.stope_type h
  simp at this

/-- C6 amended: the pipeline's only effect on the input mapping is to set
its stope_type entry to the classified method; the four numeric fields are
unchanged. -/
theorem design_pipeline_mutation_only_stope_type (r : RawInputs) (i : Inputs)
    (h : validate_inputs r = .ok i) :
    (calculate_stope_design r).2 = { r with stope_type := some (determine_stope_type i) } := by
  unfold calculate_stope_design
  rw [h]

/-- C6 amended witness: the mutation shape at the concrete valid input
dip 20, thickness 1, rqd 60, depth 100. -/
theorem design_pipeline_mutation_only_stope_type_witness :
    validate_inputs ⟨some 20, some 1, some 60, some 100, none⟩ = .ok ⟨20, 1, 60, 100⟩ ∧
    (calculate_stope_design ⟨some 20, some 1, some 60, some 100, none⟩).2 =
      { dip_angle := some 20, ore_thickness := some 1, rqd := some 60,
        mining_depth := some 100,
        stope_type := some (determine_stope_type ⟨20, 1, 60, 100⟩) } := by
  have hv : validate_inputs ⟨some 20, some 1, some 60, some 100, none⟩ =
      .ok ⟨20, 1, 60, 100⟩ := by
    unfold validate_inputs
    norm_num
  exact ⟨hv, design_pipeline_mutation_only_stope_type _ _ hv⟩

-- ============================================================
-- C10
-- ============================================================

/-- Successful validation forces all four fields present and in range. -/
lemma validate_inputs_ok_inv {r : RawInputs} {i : Inputs}
    (h : validate_inputs r = .ok i) :
    r.dip_angle = some i.dip_angle ∧ r.ore_thickness = some i.ore_thickness ∧
    r.rqd = some i.rqd ∧ r.mining_depth = some i.mining_depth ∧ ValidInputs i := by
  unfold validate_inputs at h
  split at h
  · split_ifs at h with h1 h2 h3 h4
    · cases h
      refine ⟨by assumption, by assumption, by assumption, by assumption, ?_⟩
      unfold ValidInputs
      exact ⟨h1.1, h1.2, h2.1, h2.2, h3.1, h3.2, h4.1, h4.2⟩
    all_goals cases h
  · cases h

/-- C10: an input mapping with a missing required field or a field outside
the validated ranges makes `calculate_stope_design` return an error record
(with a message) and leave the mapping unchanged; no design is produced. -/
theorem invalid_inputs_yield_error_record (r : RawInputs)
    (h : r.dip_angle = none ∨ r.ore_thickness = none ∨ r.rqd = none ∨
      r.mining_depth = none ∨
      (∃ x, r.dip_angle = some x ∧ ¬(0 ≤ x ∧ x ≤ 90)) ∨
      (∃ x, r.ore_thickness = some x ∧ ¬(0.3 ≤ x ∧ x ≤ 100)) ∨
      (∃ x, r.rqd = some x ∧ ¬(25 ≤ x ∧ x ≤ 100)) ∨
      (∃ x, r.mining_depth = some x ∧ ¬(5 ≤ x ∧ x ≤ 2000))) :
    ∃ msg, calculate_stope_design r = (.error msg, r) := by
  rcases hv : validate_inputs r with e | i
  · refine ⟨e, ?_⟩
    unfold calculate_stope_design
    rw [hv]
  · exfalso
    obtain ⟨hd, ht, hq, hm, hvalid⟩ := validate_inputs_ok_inv hv
    obtain ⟨v1, v2, v3, v4, v5, v6, v7, v8⟩ := hvalid
    rcases h with h | h | h | h | ⟨x, hx, hr⟩ | ⟨x, hx, hr⟩ | ⟨x, hx, hr⟩ | ⟨x, hx, hr⟩
    · rw [hd] at h; cases h
    · rw [ht] at h; cases h
    · rw [hq] at h; cases h
    · rw [hm] at h; cases h
    · rw [hd] at hx; cases hx; exact hr ⟨v1, v2⟩
    · rw [ht] at hx; cases hx; exact hr ⟨v3, v4⟩
    · rw [hq] at hx; cases hx; exact hr ⟨v5, v6⟩
    · rw [hm] at hx; cases hx; exact hr ⟨v7, v8⟩

/-- C10 witness: at dip 100 (out of range) with the other fields valid,
the pipeline returns an error record and the mapping is untouched. -/
theorem invalid_inputs_yield_error_record_witness :
    ((⟨some 100, some 2, some 80, some 400, none⟩ : RawInputs).dip_angle = none ∨
      (⟨some 100, some 2, some 80, some 400, none⟩ : RawInputs).ore_thickness = none ∨
      (⟨some 100, some 2, some 80, some 400, none⟩ : RawInputs).rqd = none ∨
      (⟨some 100, some 2, some 80, some 400, none⟩ : RawInputs).mining_depth = none ∨
      (∃ x, (⟨some 100, some 2, some 80, some 400, none⟩ : RawInputs).dip_angle = some x ∧
        ¬(0 ≤ x ∧ x ≤ 90)) ∨
      (∃ x, (⟨some 100, some 2, some 80, some 400, none⟩ : RawInputs).ore_thickness = some x ∧
        ¬(0.3 ≤ x ∧ x ≤ 100)) ∨
      (∃ x, (⟨some 100, some 2, some 80, some 400, none⟩ : RawInputs).rqd = some x ∧
        ¬(25 ≤ x ∧ x ≤ 100)) ∨
      (∃ x, (⟨some 100, some 2, some 80, some 400, none⟩ : RawInputs).mining_depth = some x ∧
        ¬(5 ≤ x ∧ x ≤ 2000))) ∧
    ∃ msg, calculate_stope_design ⟨some 100, some 2, some 80, some 400, none⟩ =
      (.error msg, ⟨some 100, some 2, some 80, some 400, none⟩) := by
  have hbad : (∃ x, (⟨some 100, some 2, some 80, some 400, none⟩ :
      RawInputs).dip_angle = some x ∧ ¬((0 : ℝ) ≤ x ∧ x ≤ 90)) :=
    ⟨100, rfl, by norm_num⟩
  exact ⟨Or.inr (Or.inr (Or.inr (Or.inr (Or.inl hbad)))),
    invalid_inputs_yield_error_record _ (Or.inr (Or.inr (Or.inr (Or.inr (Or.inl hbad)))))⟩

-- ============================================================
-- C7
-- ============================================================

lemma dims_rmr_eq (i : Inputs) :
    (calculate_stope_dimensions i).rmr =
      round2 (calculate_rmr_standard (max 0 (min 100 i.rqd))) := rfl

lemma dims_q_value_eq (i : Inputs) :
    (calculate_stope_dimensions i).q_value =
      round2 (calculate_q_standard (max 0 (min 100 i.rqd))) := rfl

lemma dims_stability_number_eq (i : Inputs) :
    (calculate_stope_dimensions i).stability_number =
      round2 (calculate_stability_number_standard (calculate_q_standard (max 0 (min 100 i.rqd)))
        i.dip_angle i.mining_depth) := rfl

lemma assess_sf_eq (i : Inputs) (dims : Dimensions) :
    (assess_stability i dims).safety_factor =
      round2 ((calculate_hoek_brown_strength_standard (max 0 (min 100 i.rqd)) *
        (1 + 0.015 * Real.log (max 0.1 i.ore_thickness + 1))) /
        (max 0.1 i.mining_depth * IBE_STRESS_FACTOR)) := rfl

lemma scenario_q_eq : calculate_q_standard (max 0 (min 100 (80 : ℝ))) =
    (80 / 9) * (2 / 1) * (1 / 2.5) := by
  unfold calculate_q_standard Q_JOINT_SET_NUMBER Q_JOINT_ROUGHNESS Q_JOINT_ALTERATION
    Q_WATER_FACTOR Q_STRESS_REDUCTION
  norm_num

lemma scenario_n_eq :
    calculate_stability_number_standard ((80 / 9) * (2 / 1) * (1 / 2.5)) 55 400 =
      specStabilityNumber ((80 / 9) * (2 / 1) * (1 / 2.5)) 55 400 := by
  unfold calculate_stability_number_standard specStabilityNumber
  norm_num [min_def, max_def]

lemma scenario_width_eq :
    (calculate_stope_dimensions ⟨55, 2, 80, 400⟩).width =
      specWidth ((80 / 9) * (2 / 1) * (1 / 2.5)) 55 400 := by
  rw [dims_width_eq]
  dsimp only
  unfold specWidth
  rw [scenario_q_eq, scenario_n_eq]
  have hhr : calculate_hydraulic_radius_design = specDesignHR := rfl
  rw [hhr]
  congr 1
  unfold DGMS_PILLAR_WIDTH_MIN DGMS_SAFETY_FACTOR_MIN
  norm_num [min_def, max_def]

/-- C7: the concrete scenario dip 55, thickness 2, rqd 80, depth 400: the
method is Sublevel Stoping, the reported rmr is 78.6, the reported q_value
is the rounding of (80/9)·(2/1)·(1/2.5) (namely 7.11), and the stability
number, width, volume and safety factor agree with an independent
recomputation of the spec formulas of sections 4.3 to 4.5. -/
theorem concrete_scenario_55_2_80_400 :
    determine_stope_type ⟨55, 2, 80, 400⟩ = .SublevelStoping ∧
    (calculate_stope_dimensions ⟨55, 2, 80, 400⟩).rmr = 78.6 ∧
    (calculate_stope_dimensions ⟨55, 2, 80, 400⟩).q_value =
      round2 ((80 / 9) * (2 / 1) * (1 / 2.5)) ∧
    (calculate_stope_dimensions ⟨55, 2, 80, 400⟩).q_value = 7.11 ∧
    (calculate_stope_dimensions ⟨55, 2, 80, 400⟩).stability_number =
      round2 (specStabilityNumber ((80 / 9) * (2 / 1) * (1 / 2.5)) 55 400) ∧
    (calculate_stope_dimensions ⟨55, 2, 80, 400⟩).width =
      specWidth ((80 / 9) * (2 / 1) * (1 / 2.5)) 55 400 ∧
    (calculate_stope_dimensions ⟨55, 2, 80, 400⟩).volume =
      specVolume ((80 / 9) * (2 / 1) * (1 / 2.5)) 55 400 ∧
    (assess_stability ⟨55, 2, 80, 400⟩
        (calculate_stope_dimensions ⟨55, 2, 80, 400⟩)).safety_factor =
      specSafetyFactor 80 2 400 := by
  refine ⟨?_, ?_, ?_, ?_, ?_, scenario_width_eq, ?_, ?_⟩
  · unfold determine_stope_type
    norm_num
  · rw [dims_rmr_eq]
    dsimp only
    unfold calculate_rmr_standard CMRI_RMR_ADJUSTMENT
    rw [show max 0 (min 100 (0.77 * max 0 (min 100 (80 : ℝ)) + 12 + 5)) = (78.6 : ℝ) by
      norm_num [min_def, max_def]]
    unfold round2
    norm_num
  · rw [dims_q_value_eq]
    dsimp only
    rw [scenario_q_eq]
  · rw [dims_q_value_eq]
    dsimp only
    rw [scenario_q_eq]
    rw [show ((80 : ℝ) / 9) * (2 / 1) * (1 / 2.5) = (64 : ℝ) / 9 by norm_num]
    have h : round ((64 : ℝ) / 9 * 100) = 711 := by
      rw [round_eq]
      rw [show ((64 : ℝ) / 9 * 100) + 1 / 2 = 12809 / 18 by norm_num]
      rw [Int.floor_eq_iff]
      constructor
      · norm_num
      · norm_num
    unfold round2
    rw [h]
    norm_num
  · rw [dims_stability_number_eq]
    dsimp only
    rw [scenario_q_eq, scenario_n_eq]
  · rw [dims_volume_eq, dims_length_eq, dims_height_eq, scenario_width_eq]
    unfold specVolume
    rw [mul_comm (specWidth ((80 / 9) * (2 / 1) * (1 / 2.5)) 55 400) 10,
      mul_comm (specWidth ((80 / 9) * (2 / 1) * (1 / 2.5)) 55 400) 0.8]
  · rw [assess_sf_eq]
    dsimp only
    unfold specSafetyFactor
    rw [show max (0.1 : ℝ) 400 = 400 by norm_num,
      show max (0.1 : ℝ) 2 = 2 by norm_num,
      show max 0 (min 100 (80 : ℝ)) = 80 by norm_num]
    unfold IBE_STRESS_FACTOR
    congr 1
    unfold calculate_hoek_brown_strength_standard calculate_ucs_from_rqd_standard
      calculate_gsi_from_rqd_standard specStrength
    norm_num [min_def, max_def]

end StopeDesign
